import Mathlib

/-!
Shallow embedding of `src/sibackup.py` (one-way directory mirroring engine).

The source tree is an inductive tree (the program never mutates it); the
destination/archive side is a flat association list from absolute path
strings to entries, mutated by the run.  Python exceptions that the code
catches are modelled as explicit alternatives; exceptions the code does
not catch surface as `Except.error`.  Every mutating filesystem call also
appends an event to a trace, so "no mutation happened" is expressible.
Timing counters of `info_data` are not modelled (the spec excludes them
from every equivalence it states).
-/

namespace SiBackup

/-- Python exceptions that escape the program uncaught. -/
inductive PyExc where
  | attributeError
  | fileExistsError
  | fileNotFoundError
  | notADirectoryError
  | recursionError
  | shutilError
  deriving DecidableEq

/-- Trace of filesystem mutations actually performed by a run. -/
inductive FsEvent where
  | mkdirE (p : String)
  | makedirsE (p : String)
  | chmodE (p : String)
  | moveE (src dst : String)
  | deleteE (p : String)
  | copyE (src dst : String)
  deriving DecidableEq

/-- Metadata of one destination-side filesystem object (an `os.stat` result
plus the permission facts deciding which `os.*` calls succeed on it). -/
structure DEntry where
  isDir : Bool
  mtime : Int
  size : Nat
  writable : Bool
  dev : Nat
  ino : Nat
  statPermission : Bool
  writeAllowed : Bool
  deriving DecidableEq

/-- Destination/archive filesystem: absolute path string to entry. -/
abbrev FS := List (String × DEntry)

/-- Counters of `info_data` mutated by the engine (timing fields omitted). -/
structure Stats where
  num_processed : Nat
  num_copied : Nat
  size_copied : Nat
  num_skipped : Nat
  size_skipped : Nat
  not_copied : Nat
  num_created : Nat
  conflicts_resolved : Nat
  deriving DecidableEq

def Stats.init : Stats := ⟨0, 0, 0, 0, 0, 0, 0, 0⟩

/-- Run state: destination filesystem, counters, mutation trace. -/
structure St where
  fs : FS
  stats : Stats
  events : List FsEvent
  deriving DecidableEq

/-- Engine configuration (the `args` consumed by the engine). -/
structure Config where
  depth : Option Int
  copymode : Int
  conflictmode : Int
  simulate : Bool
  archivepath : String
  source : String
  destination : String
  deriving DecidableEq

/- ----------------- path-string helpers ----------------- -/

def strHasPrefix (pre s : String) : Bool := pre.toList.isPrefixOf s.toList

def strDrop (s : String) (n : Nat) : String := ⟨s.toList.drop n⟩

def strLen (s : String) : Nat := s.toList.length

/-- `os.path.join` as the code uses it: an absolute second component
replaces the first, a trailing empty component is a no-op (Python leaves a
trailing slash there, which names the same directory). -/
def pyJoin (a b : String) : String :=
  if strHasPrefix "/" b then b
  else if a = "" then b
  else if b = "" then a
  else a ++ "/" ++ b

def splitSlash : List Char → List (List Char)
  | [] => [[]]
  | c :: rest =>
    let r := splitSlash rest
    if c = '/' then [] :: r
    else
      match r with
      | [] => [[c]]
      | h :: t => (c :: h) :: t

def splitPath (p : String) : List String :=
  (splitSlash p.toList).map (fun l => ⟨l⟩)

def joinSlash : List String → String
  | [] => ""
  | [x] => x
  | x :: rest => x ++ "/" ++ joinSlash rest

def parentPath (p : String) : String := joinSlash (splitPath p).dropLast

def lastComp (p : String) : String := ((splitPath p).getLast?).getD ""

/-- Strict ancestor directories of an absolute path, shortest first. -/
def pathPrefixes (p : String) : List String :=
  let comps := splitPath p
  (List.range comps.length).filterMap fun i =>
    if 2 ≤ i then some (joinSlash (comps.take i)) else none

/- ----------------- destination filesystem primitives ----------------- -/

def fsLookup (fs : FS) (p : String) : Option DEntry :=
  (fs.find? (fun kv => kv.1 = p)).map (fun kv => kv.2)

/-- `os.path.exists`: false both for a missing path and for one whose
`stat` fails with a permission error. -/
def pathExists (fs : FS) (p : String) : Bool :=
  match fsLookup fs p with
  | some e => e.statPermission
  | none => false

def childOf (p k : String) : Option String :=
  if strHasPrefix (p ++ "/") k then
    let n := strDrop k (strLen p + 1)
    if n = "" ∨ n.toList.contains '/' then none else some n
  else none

/-- `os.listdir` result for a directory present in the map. -/
def fsChildren (fs : FS) (p : String) : List String :=
  fs.filterMap (fun kv => childOf p kv.1)

def fsInsert (fs : FS) (p : String) (e : DEntry) : FS :=
  if (fsLookup fs p).isSome then
    fs.map (fun kv => if kv.1 = p then (p, e) else kv)
  else fs ++ [(p, e)]

def fsRemoveTree (fs : FS) (p : String) : FS :=
  fs.filter (fun kv => ¬(kv.1 = p ∨ strHasPrefix (p ++ "/") kv.1 = true))

/-- Entry for a directory freshly created by the run. -/
def mkNewDir : DEntry := ⟨true, 0, 0, true, 0, 0, true, true⟩

/-- `os.mkdir`: `.ok none` is the `PermissionError` the code catches;
creating an existing path or one with a missing parent raises. -/
def osMkdir (fs : FS) (p : String) : Except PyExc (Option FS) :=
  match fsLookup fs p with
  | some _ => .error .fileExistsError
  | none =>
    match fsLookup fs (parentPath p) with
    | none => .error .fileNotFoundError
    | some par =>
      if par.writeAllowed then .ok (some (fsInsert fs p mkNewDir)) else .ok none

/-- `os.makedirs`: creates every missing ancestor; `.ok none` is the
caught `PermissionError` (nearest existing ancestor not writable). -/
def osMakedirs (fs : FS) (p : String) : Except PyExc (Option FS) :=
  match fsLookup fs p with
  | some _ => .error .fileExistsError
  | none =>
    let anc := (pathPrefixes p).filter (fun a => (fsLookup fs a).isSome)
    let allowed :=
      match anc.getLast? with
      | some a =>
        match fsLookup fs a with
        | some e => e.writeAllowed
        | none => true
      | none => true
    if allowed then
      let addMissing := fun (acc : FS) (q : String) =>
        if (fsLookup acc q).isSome then acc else fsInsert acc q mkNewDir
      .ok (some (addMissing ((pathPrefixes p).foldl addMissing fs) p))
    else .ok none

/-- `os.chmod(p, stat.S_IWRITE)`: set the write bit. -/
def osChmod (fs : FS) (p : String) : FS :=
  fs.map (fun kv => if kv.1 = p then (kv.1, { kv.2 with writable := true }) else kv)

def renameKeys (fs : FS) (src dst : String) : FS :=
  fs.map fun kv =>
    if kv.1 = src then (dst, kv.2)
    else if strHasPrefix (src ++ "/") kv.1 then (dst ++ strDrop kv.1 (strLen src), kv.2)
    else kv

/-- `os.path.samefile(a, b)`: both stats succeed and device+inode agree. -/
def samefileFs (fs : FS) (a b : String) : Bool :=
  match fsLookup fs a, fsLookup fs b with
  | some x, some y => decide (x.ino = y.ino ∧ x.dev = y.dev)
  | _, _ => false

inductive MoveRes where
  | permErr
  | shutilErr
  | okNoop
  | okFs (fs : FS)
  deriving DecidableEq

/-- `shutil.move(src, dst)`: when `dst` is an existing directory and
`_samefile(src, dst)` holds, the call is `os.rename(src, dst)` and
returns — a rename of a path to the same file is a no-op by POSIX
(`okNoop`); otherwise the item is renamed to `dst/basename(src)`, with
`shutil.Error` when that target already exists or (for a directory being
moved into itself — here the flat map's descendant test is the path
prefix) when the rename's fallback detects the destination inside the
source; when `dst` is an existing non-directory, a samefile pair is again
a no-op rename.  `permErr` is the `PermissionError` the caller catches. -/
def osMove (fs : FS) (src dstDir : String) : MoveRes :=
  match fsLookup fs dstDir with
  | some d =>
    if d.isDir then
      if samefileFs fs src dstDir then .okNoop
      else
        let real_dst := dstDir ++ "/" ++ lastComp src
        if pathExists fs real_dst then .shutilErr
        else if strHasPrefix (src ++ "/") real_dst then .shutilErr
        else if d.writeAllowed then .okFs (renameKeys fs src real_dst)
        else .permErr
    else
      if samefileFs fs src dstDir then .okNoop
      else if d.writeAllowed then .okFs (renameKeys fs src dstDir)
      else .permErr
  | none => .okFs (renameKeys fs src dstDir)

/-- `shutil.rmtree` / `os.remove`; `none` is the caught `PermissionError`. -/
def osDelete (fs : FS) (p : String) : Option FS :=
  match fsLookup fs (parentPath p) with
  | some par => if par.writeAllowed then some (fsRemoveTree fs p) else none
  | none => some (fsRemoveTree fs p)

inductive CopyRes where
  | permErr
  | fnfErr
  | okFs (fs : FS)

/-- `shutil.copy2(srcPath, dstPath)`: metadata-preserving copy; the two
failure modes the code catches are a permission failure at the target and
a missing destination parent. -/
def osCopy2 (fs : FS) (dst : String) (sMtime : Int) (sSize : Nat) : CopyRes :=
  match fsLookup fs dst with
  | some e =>
    if e.writable then .okFs (fsInsert fs dst { e with mtime := sMtime, size := sSize })
    else .permErr
  | none =>
    match fsLookup fs (parentPath dst) with
    | none => .fnfErr
    | some par =>
      if par.writeAllowed then
        .okFs (fsInsert fs dst ⟨false, sMtime, sSize, true, 0, 0, true, true⟩)
      else .permErr

/- ----------------- StatHelper (src/sibackup.py lines 16-79) ----------------- -/

/-- `StatHelper.__init__`: on success all three fields are assigned; on
`FileNotFoundError` only `_exists`/`_has_permission`; on `PermissionError`
only `_has_permission` — `stats` and `_exists` stay unassigned (`none`),
and reading them raises `AttributeError`. -/
structure StatHelper where
  path_name : String
  stats : Option DEntry
  _exists : Option Bool
  _has_permission : Bool
  deriving DecidableEq

def StatHelper.probe (fs : FS) (p : String) : StatHelper :=
  match fsLookup fs p with
  | some e => if e.statPermission then ⟨p, some e, some true, true⟩ else ⟨p, none, none, false⟩
  | none => ⟨p, none, some false, true⟩

def StatHelper.has_permission (s : StatHelper) : Bool := s._has_permission

/-- `StatHelper.exists` (reads `self._exists`, which the permission-denied
constructor branch never assigns). -/
def StatHelper.existsQ (s : StatHelper) : Except PyExc Bool :=
  match s._exists with
  | some b => .ok b
  | none => .error .attributeError

def StatHelper.haswrite (s : StatHelper) : Except PyExc Bool :=
  match s.stats with
  | some e => .ok e.writable
  | none => .error .attributeError

/-- `mtime` of a probed destination path as line 365 reads it (only ever
read when `exists()` returned true, so the default is never observed). -/
def destMtime (fs : FS) (p : String) : Int :=
  match (StatHelper.probe fs p).stats with
  | some e => e.mtime
  | none => 0

def destSize (fs : FS) (p : String) : Nat :=
  match (StatHelper.probe fs p).stats with
  | some e => e.size
  | none => 0

/- ----------------- source tree ----------------- -/

/-- Stat metadata of a source file. -/
structure FMeta where
  mtime : Int
  size : Nat
  statPermission : Bool
  deriving DecidableEq

/-- Stat/listing metadata of a source directory. -/
structure DirMeta where
  statPermission : Bool
  listPermission : Bool
  deriving DecidableEq

/-- The source tree (never mutated by the program). -/
inductive SrcNode where
  | file (m : FMeta)
  | dir (m : DirMeta) (children : List (String × SrcNode))

/-- `StatHelper(source_item_path).has_permission()` for a source entry. -/
def srcHasPermission : SrcNode → Bool
  | .file m => m.statPermission
  | .dir m _ => m.statPermission

def SrcNode.isdir : SrcNode → Bool
  | .dir _ _ => true
  | .file _ => false

def srcMtime : SrcNode → Int
  | .file m => m.mtime
  | .dir _ _ => 0

def srcSize : SrcNode → Nat
  | .file m => m.size
  | .dir _ _ => 0

/- ----------------- copy decision (lines 360-387) ----------------- -/

inductive FileAction where
  | copyA
  | skipA
  | hashPassA
  deriving DecidableEq

/-- The `if/elif` chain of lines 360-384 as a decision value: `copyA` calls
`copy_file`, `skipA` is the final else (skip counters), `hashPassA` is the
`copymode == 3` `pass` branch (no counters at all). -/
def fileAction (cm : Int) (sM : Int) (sS : Nat) (dEx : Bool) (dM : Int) (dS : Nat) :
    FileAction :=
  if dEx = false ∨ cm = 0 then .copyA
  else if 1 ≤ cm ∧ ¬sM = dM then .copyA
  else if 2 ≤ cm ∧ sS ≠ dS then .copyA
  else if cm = 3 then .hashPassA
  else .skipA

/-- `info_data['files']['num_processed'] += 1`. -/
def bumpProcessed (st : St) : St :=
  { st with stats := { st.stats with num_processed := st.stats.num_processed + 1 } }

/-- `num_copied += 1; size_copied += n`. -/
def bumpCopied (n : Nat) (st : St) : St :=
  { st with stats := { st.stats with
      num_copied := st.stats.num_copied + 1
      size_copied := st.stats.size_copied + n } }

/-- `num_skipped += 1; size_skipped += n`. -/
def bumpSkipped (n : Nat) (st : St) : St :=
  { st with stats := { st.stats with
      num_skipped := st.stats.num_skipped + 1
      size_skipped := st.stats.size_skipped + n } }

/-- `not_copied += 1`. -/
def bumpNotCopied (st : St) : St :=
  { st with stats := { st.stats with not_copied := st.stats.not_copied + 1 } }

/-- `folders num_created += 1`. -/
def bumpCreated (st : St) : St :=
  { st with stats := { st.stats with num_created := st.stats.num_created + 1 } }

/-- `misc conflicts_resolved += 1`. -/
def bumpResolved (st : St) : St :=
  { st with stats := { st.stats with conflicts_resolved := st.stats.conflicts_resolved + 1 } }

/-- Commit a new filesystem and record the mutation event. -/
def commitFs (fs2 : FS) (e : FsEvent) (st : St) : St :=
  { st with fs := fs2
            events := st.events ++ [e] }

/-- `copy_file` (lines 183-203): real mode performs `shutil.copy2` with the
two caught error cases; simulate mode only bumps the copy counters. -/
def copy_file (cfg : Config) (sM : Int) (sS : Nat) (srcPath dstPath : String)
    (st : St) : St :=
  if cfg.simulate = false then
    match osCopy2 st.fs dstPath sM sS with
    | .okFs fs2 => bumpCopied sS (commitFs fs2 (FsEvent.copyE srcPath dstPath) st)
    | .permErr => bumpNotCopied st
    | .fnfErr => bumpNotCopied st
  else
    bumpCopied sS st

/-- Processing of one source file (lines 350-388): probe destination stats,
call `exists()` (which raises if the probe hit `PermissionError`), run the
decision chain, then always bump `num_processed`. -/
def processFile (cfg : Config) (sM : Int) (sS : Nat) (srcPath dstPath : String)
    (st : St) : Except PyExc St :=
  let dest_item_stats := StatHelper.probe st.fs dstPath
  match dest_item_stats.existsQ with
  | .error e => .error e
  | .ok dEx =>
    let st2 :=
      match fileAction cfg.copymode sM sS dEx (destMtime st.fs dstPath) (destSize st.fs dstPath) with
      | .copyA => copy_file cfg sM sS srcPath dstPath st
      | .skipA => bumpSkipped sS st
      | .hashPassA => st
    .ok (bumpProcessed st2)

/- ----------------- conflict resolution (lines 256-325) ----------------- -/

/-- Outcome of a step inside `copy_folder`: keep going with a new state, or
an early `return code` from `copy_folder` itself. -/
inductive LoopRes where
  | done (st : St)
  | ret (code : Int) (st : St)
  deriving DecidableEq

/-- Handling of one conflict item (lines 259-325).  Note the write-bit
`os.chmod` of line 276 runs before the simulate checks and before the
archive-folder guard; the guard of line 280 is a string comparison of
`conflict_item_path` against the root `archive_path`.  `ret 0` is the
`return 0` of line 292 (archive `makedirs` permission failure); move and
delete permission failures are `continue`.  A samefile no-op move returns
normally from `shutil.move`, so line 301 still counts it as resolved; a
`shutil.Error` is not caught by the `except PermissionError` and escapes. -/
def resolveConflict (cfg : Config) (archive_path current_archive_path
    conflict_item_path : String) (st : St) : Except PyExc LoopRes :=
  let conflict_item_stats := StatHelper.probe st.fs conflict_item_path
  if cfg.conflictmode = 0 then
    .ok (.done (bumpResolved st))
  else
    match conflict_item_stats.haswrite with
    | .error e => .error e
    | .ok hw =>
      let st :=
        if hw = false then
          commitFs (osChmod st.fs conflict_item_path)
            (FsEvent.chmodE conflict_item_path) st
        else st
      if cfg.conflictmode = 1 then
        if conflict_item_path = archive_path then
          .ok (.done st)
        else
          let ensured : Except PyExc LoopRes :=
            if pathExists st.fs current_archive_path = false then
              if cfg.simulate = false then
                match osMakedirs st.fs current_archive_path with
                | .error e => .error e
                | .ok none => .ok (.ret 0 st)
                | .ok (some fs2) =>
                  .ok (.done (bumpCreated
                    (commitFs fs2 (FsEvent.makedirsE current_archive_path) st)))
              else .ok (.done (bumpCreated st))
            else .ok (.done st)
          match ensured with
          | .error e => .error e
          | .ok (.ret c s) => .ok (.ret c s)
          | .ok (.done st) =>
            if cfg.simulate = false then
              match osMove st.fs conflict_item_path current_archive_path with
              | .permErr => .ok (.done st)
              | .shutilErr => .error .shutilError
              | .okNoop => .ok (.done (bumpResolved st))
              | .okFs fs2 =>
                .ok (.done (bumpResolved
                  (commitFs fs2 (FsEvent.moveE conflict_item_path current_archive_path) st)))
            else .ok (.done (bumpResolved st))
      else
        if cfg.simulate = false then
          match osDelete st.fs conflict_item_path with
          | none => .ok (.done st)
          | some fs2 =>
            .ok (.done (bumpResolved
              (commitFs fs2 (FsEvent.deleteE conflict_item_path) st)))
        else .ok (.done (bumpResolved st))

/-- The conflict loop of line 259 over `conflict_list`. -/
def resolveConflicts (cfg : Config) (archive_path current_archive_path
    current_dest_path : String) : List String → St → Except PyExc LoopRes
  | [], st => .ok (.done st)
  | c :: rest, st =>
    match resolveConflict cfg archive_path current_archive_path
        (pyJoin current_dest_path c) st with
    | .error e => .error e
    | .ok (.ret code st2) => .ok (.ret code st2)
    | .ok (.done st2) =>
      resolveConflicts cfg archive_path current_archive_path current_dest_path rest st2

/- ----------------- destination listing and mkdir steps ----------------- -/

inductive DestListRes where
  | okL (xs : List String)
  | retL (code : Int)
  deriving DecidableEq

/-- Lines 241-253: `os.listdir(current_dest_path)` catching only
`FileNotFoundError` — in simulate mode an absent directory yields `[]`,
otherwise the critical branch returns 1. -/
def destListStep (simulate : Bool) (fs : FS) (p : String) : Except PyExc DestListRes :=
  match fsLookup fs p with
  | some e => if e.isDir then .ok (.okL (fsChildren fs p)) else .error .notADirectoryError
  | none => if simulate then .ok (.okL []) else .ok (.retL 1)

/-- Lines 221-231: create the destination folder if absent.  A permission
failure is `return 0`; the simulate branch performs and counts nothing
(unlike the simulate branches of lines 293-294 and 416-417). -/
def ensureDestDir (cfg : Config) (p : String) (st : St) : Except PyExc LoopRes :=
  if pathExists st.fs p = false then
    if cfg.simulate = false then
      match osMkdir st.fs p with
      | .error e => .error e
      | .ok none => .ok (.ret 0 st)
      | .ok (some fs2) => .ok (.done (bumpCreated (commitFs fs2 (FsEvent.mkdirE p) st)))
    else .ok (.done st)
  else .ok (.done st)

/- ----------------- the recursive engine (lines 206-390) ----------------- -/

/-- Depth guard of lines 211-214. -/
def guardDepth (limit : Option Int) (depth : Nat) : Bool :=
  match limit with
  | some d => decide ((depth : Int) > d)
  | none => false

/-- The source-item loop of lines 327-389, abstracted over the recursive
call for subfolders.  An unreadable source entry is `return 0` (line 340);
a nonzero status from a child short-circuits (lines 347-349). -/
def processItemsAux (cfg : Config) (dp ap : String)
    (recur : SrcNode → String → Nat → St → Except PyExc (Int × St)) :
    List (String × SrcNode) → String → String → Nat → St → Except PyExc (Int × St)
  | [], _, _, _, st => .ok (0, st)
  | (name, child) :: rest, current_folder, current_dest_path, depth, st =>
    if srcHasPermission child = false then .ok (0, st)
    else if child.isdir then
      match recur child (pyJoin current_folder name) (depth + 1) st with
      | .error e => .error e
      | .ok (code, st2) =>
        if code ≠ 0 then .ok (code, st2)
        else processItemsAux cfg dp ap recur rest current_folder current_dest_path depth st2
    else
      match processFile cfg (srcMtime child) (srcSize child)
          (pyJoin (pyJoin cfg.source current_folder) name)
          (pyJoin current_dest_path name) st with
      | .error e => .error e
      | .ok st2 =>
        processItemsAux cfg dp ap recur rest current_folder current_dest_path depth st2

/-- Body of `copy_folder` after the depth guard (lines 216-390). -/
def copyFolderBody (cfg : Config) (dp ap : String)
    (recur : SrcNode → String → Nat → St → Except PyExc (Int × St))
    (node : SrcNode) (current_folder : String) (depth : Nat) (st : St) :
    Except PyExc (Int × St) :=
  let current_dest_path := pyJoin dp current_folder
  let current_archive_path := pyJoin ap current_folder
  match ensureDestDir cfg current_dest_path st with
  | .error e => .error e
  | .ok (.ret code st1) => .ok (code, st1)
  | .ok (.done st1) =>
    match node with
    | .file _ => .error .notADirectoryError
    | .dir m children =>
      if m.listPermission = false then .ok (0, st1)
      else
        let source_list := children.map (fun kv => kv.1)
        match destListStep cfg.simulate st1.fs current_dest_path with
        | .error e => .error e
        | .ok (.retL code) => .ok (code, st1)
        | .ok (.okL dest_list) =>
          let conflict_list := dest_list.filter (fun d => source_list.contains d = false)
          match resolveConflicts cfg ap current_archive_path current_dest_path
              conflict_list st1 with
          | .error e => .error e
          | .ok (.ret code st2) => .ok (code, st2)
          | .ok (.done st2) =>
            processItemsAux cfg dp ap recur children current_folder
              current_dest_path depth st2

/-- `copy_folder` (lines 206-390), fueled: one unit of fuel per directory
level; real runs terminate because the tree is finite, and every theorem
holds for every sufficient fuel. -/
def copyFolder (cfg : Config) (dp ap : String) :
    Nat → SrcNode → String → Nat → St → Except PyExc (Int × St)
  | 0, _, _, _, _ => .error .recursionError
  | fuel + 1, node, current_folder, depth, st =>
    if guardDepth cfg.depth depth then .ok (0, st)
    else
      copyFolderBody cfg dp ap
        (fun c ncf nd nst => copyFolder cfg dp ap fuel c ncf nd nst)
        node current_folder depth st

/-- `args.depth is not None and args.depth < 0` (line 420). -/
def depthInvalid : Option Int → Bool
  | some d => decide (d < 0)
  | none => false

/-- Option validation of lines 419-430: a negative depth limit, a copy
mode outside `[0, 1, 2, 3]` or a conflict mode outside `[0, 1, 2]` each
`return 1`; otherwise the run continues with `k`. -/
def validateOptions (cfg : Config) (st1 : St)
    (k : St → Except PyExc (Int × St)) : Except PyExc (Int × St) :=
  if depthInvalid cfg.depth then .ok (1, st1)
  else if (cfg.copymode ∈ ([0, 1, 2, 3] : List Int)) = false then .ok (1, st1)
  else if (cfg.conflictmode ∈ ([0, 1, 2] : List Int)) = false then .ok (1, st1)
  else k st1

/-- `sibackup()` (lines 394-453): source check, destination creation,
option validation (in that order — the destination is created before the
options are validated), archive creation, then the traversal. -/
def sibackup (cfg : Config) (root : Option SrcNode) (fuel : Nat) (fs0 : FS) :
    Except PyExc (Int × St) :=
  let st0 : St := ⟨fs0, Stats.init, []⟩
  match root with
  | none => .ok (1, st0)
  | some rootNode =>
    let dest_path := cfg.destination
    let step1 : Except PyExc LoopRes :=
      if pathExists st0.fs dest_path = false then
        if cfg.simulate = false then
          match osMakedirs st0.fs dest_path with
          | .error e => .error e
          | .ok none => .ok (.ret 1 st0)
          | .ok (some fs2) =>
            .ok (.done (bumpCreated (commitFs fs2 (FsEvent.makedirsE dest_path) st0)))
        else .ok (.done (bumpCreated st0))
      else .ok (.done st0)
    match step1 with
    | .error e => .error e
    | .ok (.ret code st1) => .ok (code, st1)
    | .ok (.done st1) =>
      validateOptions cfg st1 fun st1 =>
        let archive_path := pyJoin dest_path cfg.archivepath
        let step4 : Except PyExc LoopRes :=
          if cfg.conflictmode = 1 ∧ pathExists st1.fs archive_path = false then
            if cfg.simulate = false then
              match osMakedirs st1.fs archive_path with
              | .error e => .error e
              | .ok none => .ok (.ret 1 st1)
              | .ok (some fs2) =>
                .ok (.done (bumpCreated (commitFs fs2 (FsEvent.makedirsE archive_path) st1)))
            else .ok (.done (bumpCreated st1))
          else .ok (.done st1)
        match step4 with
        | .error e => .error e
        | .ok (.ret code st2) => .ok (code, st2)
        | .ok (.done st2) =>
          copyFolder cfg dest_path archive_path fuel rootNode "" 0 st2

/- ----------------- result projections ----------------- -/

def runStatus : Except PyExc (Int × St) → Option Int
  | .ok (c, _) => some c
  | .error _ => none

def runStats : Except PyExc (Int × St) → Option Stats
  | .ok (_, s) => some s.stats
  | .error _ => none

def runEvents : Except PyExc (Int × St) → Option (List FsEvent)
  | .ok (_, s) => some s.events
  | .error _ => none

def runExc : Except PyExc (Int × St) → Option PyExc
  | .ok _ => none
  | .error e => some e

/- ----------------- spec-side decision chain (for C5) ----------------- -/

/-- Modelled from the spec: the CopyDecisionPolicy chain of spec section 4.2
in the claim's order — destination missing, then mode `always`, then
mtime inequality, then size inequality, otherwise skip.  Stated from the
spec's words to compare against `fileAction`, which is the source's chain. -/
def specCopyChain (cm : Int) (sM : Int) (sS : Nat) (dEx : Bool) (dM : Int) (dS : Nat) :
    Bool :=
  if dEx = false then true
  else if cm = 0 then true
  else if 1 ≤ cm ∧ ¬sM = dM then true
  else if 2 ≤ cm ∧ sS ≠ dS then true
  else false

/- ----------------- concrete run inputs ----------------- -/

def dirE : DEntry := ⟨true, 0, 0, true, 0, 0, true, true⟩

def fileE (mt : Int) (sz : Nat) : DEntry := ⟨false, mt, sz, true, 0, 0, true, true⟩

/-- Default options: no depth limit, copymode 2, conflictmode 0, real run. -/
def cfgBase : Config := ⟨none, 2, 0, false, "!!archive", "/s", "/d"⟩

/-- A small run state whose destination root exists and is empty. -/
def stW : St := ⟨[("/d", dirE)], Stats.init, []⟩

def recurZero : SrcNode → String → Nat → St → Except PyExc (Int × St) :=
  fun _ _ _ s => .ok (0, s)

def recurOne : SrcNode → String → Nat → St → Except PyExc (Int × St) :=
  fun _ _ _ s => .ok (1, s)

/-- C1 input: subfolder `a` holds an unreadable entry, sibling `b` follows. -/
def root1 : SrcNode :=
  .dir ⟨true, true⟩
    [("a", .dir ⟨true, true⟩ [("bad", .file ⟨0, 1, false⟩)]),
     ("b", .file ⟨5, 7, true⟩)]

def fs1 : FS := [("/d", dirE)]

/-- C2 input: simulate + delete mode, one read-only destination conflict. -/
def cfg2 : Config := ⟨none, 2, 2, true, "!!archive", "/s", "/d"⟩

def root2 : SrcNode := .dir ⟨true, true⟩ []

def fs2 : FS := [("/d", dirE), ("/d/c", ⟨false, 0, 3, false, 0, 0, true, true⟩)]

/-- C3 input: one source subfolder missing on the destination side. -/
def cfg3s : Config := { cfgBase with simulate := true }

def root3 : SrcNode := .dir ⟨true, true⟩ [("sub", .dir ⟨true, true⟩ [])]

def fs3 : FS := [("/d", dirE)]

/-- C6 input: copymode 3 with a destination file of equal mtime and size. -/
def cfg6 : Config := { cfgBase with copymode := 3 }

def root6 : SrcNode := .dir ⟨true, true⟩ [("f", .file ⟨10, 4, true⟩)]

def fs6 : FS := [("/d", dirE), ("/d/f", fileE 10 4)]

/-- C7 input: negative depth limit and a missing destination directory. -/
def cfg7 : Config := ⟨some (-1), 2, 2, false, "!!archive", "/s", "/d/new"⟩

/-- C7 witness config: copy mode 7, outside `[0, 1, 2, 3]`. -/
def cfg7b : Config := ⟨none, 7, 2, false, "!!archive", "/s", "/d"⟩

def root7 : SrcNode := .dir ⟨true, true⟩ []

def fs7 : FS := [("/d", dirE)]

/-- C9 witness config: depth limit 2. -/
def cfgD : Config := { cfgBase with depth := some 2 }

/-- C10 input: the destination file's `stat` raises `PermissionError`. -/
def root10 : SrcNode := .dir ⟨true, true⟩ [("f", .file ⟨3, 2, true⟩)]

def fs10 : FS := [("/d", dirE), ("/d/f", ⟨false, 3, 2, true, 0, 0, false, true⟩)]

/-- State of the C6 witness run. -/
def st6 : St := ⟨fs6, Stats.init, []⟩

/- ----------------- shared helper lemmas ----------------- -/

theorem copy_file_counters (cfg : Config) (sM : Int) (sS : Nat) (sp dp : String)
    (st : St) :
    (copy_file cfg sM sS sp dp st).stats.num_processed = st.stats.num_processed ∧
    (copy_file cfg sM sS sp dp st).stats.num_skipped = st.stats.num_skipped ∧
    (copy_file cfg sM sS sp dp st).stats.size_skipped = st.stats.size_skipped := by
  unfold copy_file
  split
  · rcases osCopy2 st.fs dp sM sS with _ | _ | fs2 <;>
      simp [bumpCopied, bumpNotCopied, commitFs]
  · simp [bumpCopied]

theorem osMakedirs_cases (fs : FS) (p : String) (h : fsLookup fs p = none) :
    osMakedirs fs p = .ok none ∨ ∃ fs2, osMakedirs fs p = .ok (some fs2) := by
  unfold osMakedirs
  rw [h]
  dsimp only
  split
  · right; exact ⟨_, rfl⟩
  · left; rfl

theorem validateOptions_invalid (cfg : Config)
    (hinv : depthInvalid cfg.depth = true ∨
      (cfg.copymode ∈ ([0, 1, 2, 3] : List Int)) = false ∨
      (cfg.conflictmode ∈ ([0, 1, 2] : List Int)) = false)
    (st1 : St) (k : St → Except PyExc (Int × St)) :
    validateOptions cfg st1 k = .ok (1, st1) := by
  unfold validateOptions
  rcases hinv with h | h | h
  · simp [h]
  · by_cases h1 : depthInvalid cfg.depth = true <;> simp [h, h1]
  · by_cases h1 : depthInvalid cfg.depth = true <;>
      by_cases h2 : (cfg.copymode ∈ ([0, 1, 2, 3] : List Int)) = false <;>
        simp [h, h1, h2]

/-- C1 counterexample: the claim says an unreadable source entry aborts the
entire run with fatal status 1, short-circuiting all remaining siblings and
ancestors.  On `root1` the unreadable entry sits inside subfolder `a`, yet
the run finishes with status 0 and still processes the later sibling file
`b` (one file processed), so neither the status nor the short-circuit to
ancestors holds. -/
theorem c1_fatal_abort_counterexample :
    runStatus (sibackup cfgBase (some root1) 10 fs1) = some 0 ∧
    (runStats (sibackup cfgBase (some root1) 10 fs1)).map Stats.num_processed = some 1 := by
  exact ⟨by decide, by decide⟩

/-- C1 amended: when a source entry's metadata probe reports no read
permission, `copy_folder` logs and returns status 0, abandoning only the
remaining entries of the current directory; the parent receives 0 and
continues with its own remaining entries, so the run is not aborted. -/
theorem c1_unreadable_entry_local_skip :
    (∀ (cfg : Config) (dp ap : String)
      (recur : SrcNode → String → Nat → St → Except PyExc (Int × St))
      (name : String) (child : SrcNode) (rest : List (String × SrcNode))
      (cf cd : String) (depth : Nat) (st : St),
      srcHasPermission child = false →
      processItemsAux cfg dp ap recur ((name, child) :: rest) cf cd depth st = .ok (0, st)) ∧
    (∀ (cfg : Config) (dp ap : String)
      (recur : SrcNode → String → Nat → St → Except PyExc (Int × St))
      (name : String) (child : SrcNode) (rest : List (String × SrcNode))
      (cf cd : String) (depth : Nat) (st st2 : St),
      srcHasPermission child = true → child.isdir = true →
      recur child (pyJoin cf name) (depth + 1) st = .ok (0, st2) →
      processItemsAux cfg dp ap recur ((name, child) :: rest) cf cd depth st =
        processItemsAux cfg dp ap recur rest cf cd depth st2) := by
  constructor
  · intro cfg dp ap recur name child rest cf cd depth st h
    simp [processItemsAux, h]
  · intro cfg dp ap recur name child rest cf cd depth st st2 hperm hdir hrec
    simp [processItemsAux, hperm, hdir, hrec]

/-- C1 amended witness at a concrete input: an unreadable entry ends the
level with status 0 and an untouched state; a subdirectory returning 0
lets the loop continue with the remaining entries. -/
theorem c1_unreadable_entry_local_skip_witness :
    (processItemsAux cfgBase "/d" "/d/!!archive" recurZero
      [("bad", SrcNode.file ⟨0, 1, false⟩), ("b", SrcNode.file ⟨5, 7, true⟩)]
      "" "/d" 0 stW = .ok (0, stW)) ∧
    (processItemsAux cfgBase "/d" "/d/!!archive" recurZero
      [("a", SrcNode.dir ⟨true, true⟩ [])] "" "/d" 0 stW =
      processItemsAux cfgBase "/d" "/d/!!archive" recurZero [] "" "/d" 0 stW) :=
  ⟨c1_unreadable_entry_local_skip.1 cfgBase "/d" "/d/!!archive" recurZero
      "bad" (SrcNode.file ⟨0, 1, false⟩) [("b", SrcNode.file ⟨5, 7, true⟩)]
      "" "/d" 0 stW (by decide),
   c1_unreadable_entry_local_skip.2 cfgBase "/d" "/d/!!archive" recurZero
      "a" (SrcNode.dir ⟨true, true⟩ []) [] "" "/d" 0 stW stW
      (by decide) (by decide) rfl⟩

/-- C2: the claim says a simulate run performs no filesystem mutation of
any kind, including no permission-bit change.  In simulate mode with
delete conflict handling, a read-only destination conflict still gets
`os.chmod(path, S_IWRITE)` (line 276 runs before the simulate check), so
the run's mutation trace is nonempty. -/
theorem c2_simulate_chmod_mutation :
    cfg2.simulate = true ∧
    runEvents (sibackup cfg2 (some root2) 10 fs2) = some [FsEvent.chmodE "/d/c"] ∧
    runStatus (sibackup cfg2 (some root2) 10 fs2) = some 0 := by
  exact ⟨rfl, by decide, by decide⟩

/-- C3: the claim says a simulate run yields exactly the counters of a real
run from the same initial state.  With one source subfolder missing on the
destination side, the real run counts the created folder (lines 226-227)
while the simulate branch of lines 221-231 counts nothing, so the
folders-created counters differ (1 versus 0). -/
theorem c3_simulate_counter_divergence :
    cfg3s = { cfgBase with simulate := true } ∧
    (runStats (sibackup cfgBase (some root3) 10 fs3)).map Stats.num_created = some 1 ∧
    (runStats (sibackup cfg3s (some root3) 10 fs3)).map Stats.num_created = some 0 := by
  exact ⟨rfl, by decide, by decide⟩

/-- C5: for every copy mode and metadata pair, the source's decision chain
(`fileAction`, lines 360-384) decides copy exactly as the spec's chain:
destination missing → copy; mode `always` → copy; mode ≥ by-mtime and
mtimes differ (including a newer destination) → copy; mode ≥
by-mtime-then-size and sizes differ → copy; otherwise no copy. -/
theorem c5_decision_chain (cm sM : Int) (sS : Nat) (dEx : Bool) (dM : Int) (dS : Nat) :
    (fileAction cm sM sS dEx dM dS = FileAction.copyA) ↔
      specCopyChain cm sM sS dEx dM dS = true := by
  unfold fileAction specCopyChain
  by_cases hE : dEx = false <;> by_cases h0 : cm = 0 <;>
    by_cases h1 : 1 ≤ cm ∧ ¬sM = dM <;> by_cases h2 : 2 ≤ cm ∧ sS ≠ dS <;>
    by_cases h3 : cm = 3 <;> simp_all

/-- C6 counterexample: the claim says a not-copied file increments the skip
counters even in the copymode-3 hash fallback.  On a copymode-3 run whose
single file matches the destination in mtime and size, the `pass` branch of
line 381 leaves both skip counters at 0 although the file was processed. -/
theorem c6_hash_fallback_counterexample :
    (runStats (sibackup cfg6 (some root6) 10 fs6)).map Stats.num_processed = some 1 ∧
    (runStats (sibackup cfg6 (some root6) 10 fs6)).map Stats.num_skipped = some 0 ∧
    (runStats (sibackup cfg6 (some root6) 10 fs6)).map Stats.size_skipped = some 0 := by
  exact ⟨by decide, by decide, by decide⟩

/-- C6 amended: processing a source file always increments the processed
counter by exactly one; the skip counters increment exactly when the
decision chain reaches its final skip branch, while the copymode-3 hash
fallback (destination present, equal mtimes and sizes) changes neither the
skip nor the copy counters. -/
theorem c6_processed_and_skip_counters (cfg : Config) (sM : Int) (sS : Nat)
    (sp dp : String) (st : St) (dEx : Bool)
    (h : (StatHelper.probe st.fs dp)._exists = some dEx) :
    ∃ st', processFile cfg sM sS sp dp st = .ok st' ∧
      st'.stats.num_processed = st.stats.num_processed + 1 ∧
      (fileAction cfg.copymode sM sS dEx (destMtime st.fs dp) (destSize st.fs dp) =
          FileAction.skipA →
        st'.stats.num_skipped = st.stats.num_skipped + 1 ∧
        st'.stats.size_skipped = st.stats.size_skipped + sS) ∧
      (fileAction cfg.copymode sM sS dEx (destMtime st.fs dp) (destSize st.fs dp) =
          FileAction.hashPassA →
        st'.stats.num_skipped = st.stats.num_skipped ∧
        st'.stats.size_skipped = st.stats.size_skipped ∧
        st'.stats.num_copied = st.stats.num_copied ∧
        st'.stats.not_copied = st.stats.not_copied) := by
  have hex : (StatHelper.probe st.fs dp).existsQ = .ok dEx := by
    unfold StatHelper.existsQ
    rw [h]
  simp only [processFile, hex]
  rcases hA : fileAction cfg.copymode sM sS dEx (destMtime st.fs dp) (destSize st.fs dp)
    with _ | _ | _
  · refine ⟨_, rfl, ?_, by simp, by simp⟩
    simp [bumpProcessed, (copy_file_counters cfg sM sS sp dp st).1]
  · refine ⟨_, rfl, ?_, ?_, by simp⟩
    · simp [bumpProcessed, bumpSkipped]
    · intro _
      constructor <;> simp [bumpProcessed, bumpSkipped]
  · exact ⟨_, rfl, by simp [bumpProcessed], by simp,
      fun _ => ⟨by simp [bumpProcessed], by simp [bumpProcessed],
        by simp [bumpProcessed], by simp [bumpProcessed]⟩⟩

/-- C6 amended witness at the copymode-3 run state: the file counts as
processed, and the hash-fallback leaves the other counters unchanged. -/
theorem c6_processed_and_skip_counters_witness :
    ∃ st', processFile cfg6 10 4 "/s/f" "/d/f" st6 = .ok st' ∧
      st'.stats.num_processed = st6.stats.num_processed + 1 ∧
      (fileAction cfg6.copymode 10 4 true (destMtime st6.fs "/d/f")
          (destSize st6.fs "/d/f") = FileAction.skipA →
        st'.stats.num_skipped = st6.stats.num_skipped + 1 ∧
        st'.stats.size_skipped = st6.stats.size_skipped + 4) ∧
      (fileAction cfg6.copymode 10 4 true (destMtime st6.fs "/d/f")
          (destSize st6.fs "/d/f") = FileAction.hashPassA →
        st'.stats.num_skipped = st6.stats.num_skipped ∧
        st'.stats.size_skipped = st6.stats.size_skipped ∧
        st'.stats.num_copied = st6.stats.num_copied ∧
        st'.stats.not_copied = st6.stats.not_copied) :=
  c6_processed_and_skip_counters cfg6 10 4 "/s/f" "/d/f" st6 true rfl

/-- C7 counterexample: the claim says an invalid configuration aborts with
status 1 before any filesystem mutation, in particular before creating the
destination directory.  With depth -1 and a missing destination, the run
does abort with status 1 but only after `os.makedirs` created (and
counted) the destination directory. -/
theorem c7_validation_order_counterexample :
    runStatus (sibackup cfg7 (some root7) 10 fs7) = some 1 ∧
    runEvents (sibackup cfg7 (some root7) 10 fs7) = some [FsEvent.makedirsE "/d/new"] ∧
    (runStats (sibackup cfg7 (some root7) 10 fs7)).map Stats.num_created = some 1 := by
  exact ⟨by decide, by decide, by decide⟩

/-- C7 amended: every invalid configuration — a negative depth limit, a
copy mode outside 0..3 or a conflict mode outside 0..2 — aborts the run
with status 1 before the traversal starts (no file processed, copied or
skipped, no conflict resolved) — but after the destination-creation step,
which may already have created the destination directory. -/
theorem c7_invalid_config_aborts_before_traversal (cfg : Config) (root : SrcNode)
    (fuel : Nat) (fs : FS)
    (hinv : depthInvalid cfg.depth = true ∨
      (cfg.copymode ∈ ([0, 1, 2, 3] : List Int)) = false ∨
      (cfg.conflictmode ∈ ([0, 1, 2] : List Int)) = false)
    (hdest : fsLookup fs cfg.destination = none ∨ pathExists fs cfg.destination = true) :
    ∃ st', sibackup cfg (some root) fuel fs = .ok (1, st') ∧
      st'.stats.num_processed = 0 ∧ st'.stats.num_copied = 0 ∧
      st'.stats.num_skipped = 0 ∧ st'.stats.conflicts_resolved = 0 := by
  have hval := validateOptions_invalid cfg hinv
  rcases hdest with hnone | hex
  · have hpe : pathExists fs cfg.destination = false := by simp [pathExists, hnone]
    by_cases hsim : cfg.simulate = false
    · rcases osMakedirs_cases fs cfg.destination hnone with hmk | ⟨fs2, hmk⟩
      · refine ⟨⟨fs, Stats.init, []⟩, ?_, rfl, rfl, rfl, rfl⟩
        simp [sibackup, hpe, hsim, hmk, hval]
      · refine ⟨bumpCreated (commitFs fs2 (FsEvent.makedirsE cfg.destination)
          ⟨fs, Stats.init, []⟩), ?_, ?_, ?_, ?_, ?_⟩
        · simp [sibackup, hpe, hsim, hmk, hval]
        all_goals simp [bumpCreated, commitFs, Stats.init]
    · refine ⟨bumpCreated ⟨fs, Stats.init, []⟩, ?_, ?_, ?_, ?_, ?_⟩
      · simp [sibackup, hpe, hsim, hval]
      all_goals simp [bumpCreated, Stats.init]
  · refine ⟨⟨fs, Stats.init, []⟩, ?_, rfl, rfl, rfl, rfl⟩
    simp [sibackup, hex, hval]

/-- C7 amended witness: the concrete invalid-depth run and a concrete
invalid-copymode run both abort with 1 and all traversal counters zero. -/
theorem c7_invalid_config_aborts_before_traversal_witness :
    (∃ st', sibackup cfg7 (some root7) 10 fs7 = .ok (1, st') ∧
      st'.stats.num_processed = 0 ∧ st'.stats.num_copied = 0 ∧
      st'.stats.num_skipped = 0 ∧ st'.stats.conflicts_resolved = 0) ∧
    (∃ st', sibackup cfg7b (some root7) 10 fs7 = .ok (1, st') ∧
      st'.stats.num_processed = 0 ∧ st'.stats.num_copied = 0 ∧
      st'.stats.num_skipped = 0 ∧ st'.stats.conflicts_resolved = 0) :=
  ⟨c7_invalid_config_aborts_before_traversal cfg7 root7 10 fs7
    (Or.inl (by decide)) (Or.inl rfl),
   c7_invalid_config_aborts_before_traversal cfg7b root7 10 fs7
    (Or.inr (Or.inl (by decide))) (Or.inr (by decide))⟩

/-- C8: when the destination directory of the current level cannot be
listed because it is absent, simulate mode proceeds with an empty child
list, while a real run returns the fatal status 1 (lines 241-253); and a
nonzero child status short-circuits the remaining siblings of the source
loop unchanged, which is how the fatal status unwinds the whole run. -/
theorem c8_missing_dest_listing :
    (∀ (fs : FS) (p : String), fsLookup fs p = none →
      destListStep true fs p = .ok (.okL [])) ∧
    (∀ (fs : FS) (p : String), fsLookup fs p = none →
      destListStep false fs p = .ok (.retL 1)) ∧
    (∀ (cfg : Config) (dp ap : String)
      (recur : SrcNode → String → Nat → St → Except PyExc (Int × St))
      (name : String) (child : SrcNode) (rest : List (String × SrcNode))
      (cf cd : String) (depth : Nat) (st st2 : St),
      srcHasPermission child = true → child.isdir = true →
      recur child (pyJoin cf name) (depth + 1) st = .ok (1, st2) →
      processItemsAux cfg dp ap recur ((name, child) :: rest) cf cd depth st =
        .ok (1, st2)) := by
  refine ⟨?_, ?_, ?_⟩
  · intro fs p h
    simp [destListStep, h]
  · intro fs p h
    simp [destListStep, h]
  · intro cfg dp ap recur name child rest cf cd depth st st2 hperm hdir hrec
    simp [processItemsAux, hperm, hdir, hrec]

/-- C8 witness: both listing behaviors at a concrete absent path, and the
fatal status short-circuiting a concrete source loop. -/
theorem c8_missing_dest_listing_witness :
    destListStep true [] "/d/x" = .ok (.okL []) ∧
    destListStep false [] "/d/x" = .ok (.retL 1) ∧
    processItemsAux cfgBase "/d" "/a" recurOne [("y", SrcNode.dir ⟨true, true⟩ [])]
      "" "/d" 0 stW = .ok (1, stW) :=
  ⟨c8_missing_dest_listing.1 [] "/d/x" rfl,
   c8_missing_dest_listing.2.1 [] "/d/x" rfl,
   c8_missing_dest_listing.2.2 cfgBase "/d" "/a" recurOne "y"
     (SrcNode.dir ⟨true, true⟩ []) [] "" "/d" 0 stW stW (by decide) (by decide) rfl⟩

/-- C9: when a depth limit `d` is configured, a call at depth exceeding `d`
returns status 0 with the state untouched — no directory created, nothing
listed, no conflict resolved, nothing copied — while a call at depth ≤ d
passes the guard and runs the full folder body (so entries at depth ≤ d
are still visited). -/
theorem c9_depth_guard :
    (∀ (cfg : Config) (dp ap : String) (fuel : Nat) (node : SrcNode)
      (cf : String) (depth : Nat) (st : St) (d : Int),
      cfg.depth = some d → (depth : Int) > d →
      copyFolder cfg dp ap (fuel + 1) node cf depth st = .ok (0, st)) ∧
    (∀ (cfg : Config) (dp ap : String) (fuel : Nat) (node : SrcNode)
      (cf : String) (depth : Nat) (st : St) (d : Int),
      cfg.depth = some d → ¬((depth : Int) > d) →
      copyFolder cfg dp ap (fuel + 1) node cf depth st =
        copyFolderBody cfg dp ap
          (fun c ncf nd nst => copyFolder cfg dp ap fuel c ncf nd nst)
          node cf depth st) := by
  constructor
  · intro cfg dp ap fuel node cf depth st d hd hgt
    simp [copyFolder, guardDepth, hd, hgt]
  · intro cfg dp ap fuel node cf depth st d hd hle
    simp [copyFolder, guardDepth, hd, hle]

/-- C9 witness: with depth limit 2, a call at depth 3 returns 0 and leaves
the state untouched, and a call at depth 1 runs the folder body. -/
theorem c9_depth_guard_witness :
    copyFolder cfgD "/d" "/a" 4 (SrcNode.dir ⟨true, true⟩ []) "" 3 stW = .ok (0, stW) ∧
    copyFolder cfgD "/d" "/a" 4 (SrcNode.dir ⟨true, true⟩ []) "" 1 stW =
      copyFolderBody cfgD "/d" "/a"
        (fun c ncf nd nst => copyFolder cfgD "/d" "/a" 3 c ncf nd nst)
        (SrcNode.dir ⟨true, true⟩ []) "" 1 stW :=
  ⟨c9_depth_guard.1 cfgD "/d" "/a" 3 (SrcNode.dir ⟨true, true⟩ []) "" 3 stW 2 rfl
      (by decide),
   c9_depth_guard.2 cfgD "/d" "/a" 3 (SrcNode.dir ⟨true, true⟩ []) "" 1 stW 2 rfl
      (by decide)⟩

/-- C10: a destination file whose metadata probe raises `PermissionError`
leaves the `_exists` attribute unassigned (the constructor branch of lines
33-35 sets only `_has_permission`), so the `exists()` call of line 361
raises `AttributeError` and the run dies with an unhandled exception
instead of either documented error tier — the engine checks readability
only for source entries, never for destination-file probes. -/
theorem c10_dest_permission_unhandled_exception :
    (StatHelper.probe fs10 "/d/f")._exists = none ∧
    (StatHelper.probe fs10 "/d/f").has_permission = false ∧
    runExc (sibackup cfgBase (some root10) 10 fs10) = some PyExc.attributeError := by
  exact ⟨rfl, rfl, by decide⟩

end SiBackup
